import Mathlib

/-!
Verification of the ClassifyTE parallel feature-generation layer.

The development shallowly embeds the two scripts
`generate_feature_file_parallel.py` (directory staging, parallel FASTA
splitting, manifest construction, external-stage orchestration) and
`benchmark_parallel.py` (the benchmark harness).  File contents are
`List Char`, elapsed times are `ℚ`, external process outcomes are explicit
parameters, and fallible operations return `Except`.
-/

namespace ClassifyTE

/-! ### Python string primitives used by the scripts -/

/-- The ASCII characters removed by Python's `str.strip()` (space, tab,
newline, carriage return, vertical tab, form feed). -/
def isPySpace (c : Char) : Bool :=
  c = ' ' || c = '\t' || c = '\n' || c = '\r' || c.toNat = 11 || c.toNat = 12

/-- Python `content.split(sep)` for a one-character separator: `n` separator
occurrences yield `n + 1` fragments, empty fragments included, and the split
of the empty string is `[""]`. -/
def pySplit (sep : Char) : List Char → List (List Char)
  | [] => [[]]
  | c :: cs =>
    match pySplit sep cs with
    | f :: fs => if c = sep then [] :: f :: fs else (c :: f) :: fs
    | [] => [[]]

/-- Truthiness of Python `s.strip()`: `true` iff `s` has a non-whitespace
character.  This is the filter condition of the comprehension at line 60 of
`generate_feature_file_parallel.py` (`if seq_data.strip()`). -/
def stripTruthy (s : List Char) : Bool := !s.all isPySpace

/-! ### Sequence Splitter (`parallel_sequence_splitting`, lines 38-67) -/

/-- `content.split(">")[1:]` — the post-marker fragments (line 45). -/
def sequencesOf (content : List Char) : List (List Char) :=
  (pySplit '>' content).drop 1

/-- Transcription of the comprehension at lines 60-61,
`[(seq_data, i+1, dir) for i, seq_data in enumerate(sequences) if seq_data.strip()]`,
with the enumeration index threaded explicitly: `i` is the current
`enumerate` index, the recorded ordinal is `i + 1`, and fragments whose
`strip()` is falsy are dropped (keeping the constant output directory out of
the model). -/
def argsListFrom (i : ℕ) : List (List Char) → List (List Char × ℕ)
  | [] => []
  | s :: ss =>
    if stripTruthy s then (s, i + 1) :: argsListFrom (i + 1) ss
    else argsListFrom (i + 1) ss

/-- The splitter's `args_list` for a given file content. -/
def argsList (content : List Char) : List (List Char × ℕ) :=
  argsListFrom 0 (sequencesOf content)

/-- `f"seq{seq_id}.fasta"` (line 51). -/
def seqFileName (id : ℕ) : List Char :=
  "seq".data ++ (toString id).data ++ ".fasta".data

/-- `write_sequence` (lines 49-53): the target file name and the bytes
written (the marker re-prepended to the fragment). -/
def write_sequence (seqData : List Char) (id : ℕ) : List Char × List Char :=
  (seqFileName id, '>' :: seqData)

/-- `parallel_sequence_splitting` (lines 38-67).  `wr id` models whether the
dispatched write task for ordinal `id` succeeds.  The code hands `args_list`
to `executor.map(write_sequence, args_list)` and never consumes the returned
iterator, so an exception raised inside a task is never re-raised: the
function always returns `len(args_list)` normally, and a failed task merely
leaves its file unwritten.  The result is the returned count together with
the files actually written (name, bytes). -/
def parallel_sequence_splitting (content : List Char) (wr : ℕ → Bool) :
    ℕ × List (List Char × List Char) :=
  let args := argsList content
  (args.length,
    args.filterMap fun p => if wr p.2 then some (write_sequence p.1 p.2) else none)

/-- The number of surviving fragments: post-marker fragments that are neither
empty nor whitespace-only. -/
def survivors (content : List Char) : ℕ :=
  ((sequencesOf content).filter stripTruthy).length

/-- The ordinals carried by the splitter's output file names, in dispatch
order. -/
def splitOrdinals (content : List Char) : List ℕ :=
  (argsList content).map Prod.snd

/-! ### Basic lemmas about the splitter -/

lemma argsListFrom_length (ss : List (List Char)) :
    ∀ i, (argsListFrom i ss).length = (ss.filter stripTruthy).length := by
  induction ss with
  | nil => intro i; rfl
  | cons s ss ih =>
    intro i
    by_cases h : stripTruthy s
    · simp [argsListFrom, h, List.filter_cons, ih]
    · simp [argsListFrom, h, List.filter_cons, ih]

lemma argsListFrom_snd_lt (ss : List (List Char)) :
    ∀ i, ∀ n ∈ (argsListFrom i ss).map Prod.snd, i < n := by
  induction ss with
  | nil => intro i n hn; simp [argsListFrom] at hn
  | cons s ss ih =>
    intro i n hn
    by_cases h : stripTruthy s
    · simp only [argsListFrom, h, if_true, List.map_cons, List.mem_cons] at hn
      rcases hn with rfl | hn
      · omega
      · have := ih (i + 1) n hn; omega
    · simp only [argsListFrom, h, if_false] at hn
      have := ih (i + 1) n hn; omega

lemma argsListFrom_snd_sorted (ss : List (List Char)) :
    ∀ i, List.Sorted (· < ·) ((argsListFrom i ss).map Prod.snd) := by
  induction ss with
  | nil => intro i; simp [argsListFrom]
  | cons s ss ih =>
    intro i
    by_cases h : stripTruthy s
    · simp only [argsListFrom, h, if_true, List.map_cons, List.sorted_cons]
      refine ⟨fun n hn => ?_, ih (i + 1)⟩
      have := argsListFrom_snd_lt ss (i + 1) n hn; omega
    · simpa [argsListFrom, h] using ih (i + 1)

lemma argsListFrom_all_survive (ss : List (List Char)) :
    ∀ i, (ss.all stripTruthy) →
      (argsListFrom i ss).map Prod.snd = List.range' (i + 1) ss.length := by
  induction ss with
  | nil => intro i _; rfl
  | cons s ss ih =>
    intro i hall
    simp only [List.all_cons, Bool.and_eq_true] at hall
    simp only [argsListFrom, hall.1, if_true, List.map_cons, List.length_cons,
      List.range'_succ]
    exact congrArg _ (ih (i + 1) hall.2)

lemma argsList_length (content : List Char) :
    (argsList content).length = survivors content :=
  argsListFrom_length _ 0

lemma length_filterMap_some {α β : Type} (f : α → β) (l : List α) :
    (l.filterMap fun a => some (f a)).length = l.length := by
  induction l with
  | nil => rfl
  | cons a l ih => simp [List.filterMap_cons, ih]

/-! ### Claim C1 -/

/-- A content on which an interior whitespace-only fragment is discarded:
`">a> >b"`. -/
def exC1content : List Char := ">a> >b".data

/-- C1 (counterexample).  The claim says the output file names carry the
consecutive ordinals `1..R`.  On the input `">a> >b"` there are `R = 2`
surviving fragments, but the code numbers files by the fragment's position
among all post-marker fragments, so the written ordinals are `[1, 3]`, not
`[1, 2]`. -/
theorem splitter_ordinals_not_consecutive :
    survivors exC1content = 2 ∧
    splitOrdinals exC1content = [1, 3] ∧
    splitOrdinals exC1content ≠ List.range' 1 (survivors exC1content) := by
  refine ⟨by decide, by decide, by decide⟩

/-- C1 (amended).  The splitter produces exactly `R` output files (one per
surviving fragment, all write tasks succeeding); each file's ordinal is the
fragment's 1-based position among all post-marker fragments, so the ordinal
sequence is strictly increasing in order of appearance (names never
collide); in particular, whenever every post-marker fragment survives, the
ordinals are the consecutive `1..R`.  (This sufficient condition is not
necessary: on `">a> "` the discarded fragment trails the single survivor
and the ordinals are still `[1]`.) -/
theorem splitter_count_and_ordinals (content : List Char) :
    (parallel_sequence_splitting content fun _ => true).1 = survivors content ∧
    ((parallel_sequence_splitting content fun _ => true).2).length =
      survivors content ∧
    List.Sorted (· < ·) (splitOrdinals content) ∧
    ((sequencesOf content).all stripTruthy →
      splitOrdinals content = List.range' 1 (survivors content)) := by
  refine ⟨argsList_length content, ?_, argsListFrom_snd_sorted _ 0, ?_⟩
  · have h : (parallel_sequence_splitting content fun _ => true).2 =
        (argsList content).filterMap fun p => some (write_sequence p.1 p.2) := rfl
    rw [h, length_filterMap_some]
    exact argsList_length content
  · intro hall
    have h := argsListFrom_all_survive (sequencesOf content) 0 hall
    have hfil : (sequencesOf content).filter stripTruthy = sequencesOf content :=
      List.filter_eq_self.mpr (by simpa [List.all_eq_true] using hall)
    simpa [splitOrdinals, argsList, survivors, hfil] using h

/-- C1 (witness): on `">a>b"` every post-marker fragment survives, and the
amended theorem yields the consecutive ordinals `1..2`. -/
theorem splitter_count_and_ordinals_witness :
    splitOrdinals ">a>b".data = List.range' 1 (survivors ">a>b".data) :=
  (splitter_count_and_ordinals ">a>b".data).2.2.2 (by decide)

/-! ### Claim C2 -/

/-- C2 (code evaluated at the failing input).  Input `">A"` has one surviving
fragment; its single write task fails (`wr = fun _ => false`, modelling an
I/O error raised inside the task).  Because `executor.map`'s result iterator
is never consumed, the exception is swallowed: the stage still returns the
count `1` normally while no file at all was written. -/
theorem splitter_swallows_write_failure :
    (parallel_sequence_splitting ">A".data fun _ => false).1 = 1 ∧
    (parallel_sequence_splitting ">A".data fun _ => false).2 = [] := by
  refine ⟨by decide, by decide⟩

/-! ### Manifest Builder (`create_file_list`, lines 69-84) -/

/-- Python `f.endswith('.fasta')` (line 73). -/
def endsWithFasta (f : List Char) : Bool := (".fasta".data).isSuffixOf f

/-- The bytes of the manifest file: one filename per line (lines 76-78). -/
def manifestBytes (files : List (List Char)) : List Char :=
  (files.map fun f => f ++ ['\n']).flatten

/-- Result of `create_file_list`: the sorted file list, the manifest written
to `input_data/list.txt`, the two verbatim copies made with `shutil.copy2`
into the feature directory and the kanalyzer code directory (lines 81-82),
and the returned count. -/
structure FileListResult where
  files : List (List Char)
  manifest : List Char
  featureCopy : List Char
  kanalyzerCopy : List Char
  count : ℕ

/-- `create_file_list` (lines 69-84) applied to the listing of the input
directory: filter the listing to names ending in `.fasta`, sort ascending
(Python `sorted` on strings is lexicographic by code point, as is `≤` on
`List Char`), write one filename per line, copy the file byte-for-byte to
the two published locations, and return the count. -/
def create_file_list (listing : List (List Char)) : FileListResult :=
  let files := List.insertionSort (α := List Char) (· ≤ ·) (listing.filter endsWithFasta)
  let manifest := manifestBytes files
  { files := files, manifest := manifest,
    featureCopy := manifest, kanalyzerCopy := manifest, count := files.length }

/-- The input-directory listing seen by `create_file_list` in
`parallel_get_data`: the directory is freshly created by `setup_directories`,
so its entries are exactly the names of the files the splitter actually
wrote. -/
def inputDirListing (content : List Char) (wr : ℕ → Bool) : List (List Char) :=
  (parallel_sequence_splitting content wr).2.map Prod.fst

/-- Data-preparation part of `parallel_get_data` (lines 158-179) after the
directory staging: run the splitter (producing `num_sequences`), then the
manifest builder, and return `num_files`.  The code contains no comparison
of `num_sequences` with `num_files` and no raise point between the two
calls, so the splitter count never influences the returned value. -/
def parallel_get_data (content : List Char) (wr : ℕ → Bool) : ℕ :=
  (create_file_list (inputDirListing content wr)).count

lemma filterMap_some_map {α β γ : Type} (f : α → β) (g : β → γ) (l : List α) :
    ((l.filterMap fun a => some (f a)).map g) = l.map fun a => g (f a) := by
  induction l with
  | nil => rfl
  | cons a l ih => simp [List.filterMap_cons, ih]

lemma seqFileName_endsWithFasta (id : ℕ) : endsWithFasta (seqFileName id) = true := by
  unfold endsWithFasta seqFileName
  rw [List.isSuffixOf_iff_suffix]
  simpa [List.append_assoc] using
    List.suffix_append ("seq".data ++ (toString id).data) (".fasta".data)

lemma inputDirListing_all_writes (content : List Char) :
    inputDirListing content (fun _ => true) =
      (argsList content).map fun p => seqFileName p.2 := by
  have h : (parallel_sequence_splitting content fun _ => true).2 =
      (argsList content).filterMap fun p => some (write_sequence p.1 p.2) := rfl
  unfold inputDirListing
  rw [h, filterMap_some_map]
  rfl

/-! ### Claim C3 -/

/-- C3 (counterexample).  On input `">A>C"` with both write tasks failing
(exceptions swallowed, see C2), the splitter returns `num_sequences = 2`
while the manifest builder finds an empty directory and returns
`num_files = 0`; `parallel_get_data` nevertheless returns `0` normally — the
two counts differ and no invariant check stops the run. -/
theorem file_count_mismatch_not_checked :
    (parallel_sequence_splitting ">A>C".data fun _ => false).1 = 2 ∧
    parallel_get_data ">A>C".data (fun _ => false) = 0 := by
  refine ⟨by decide, by decide⟩

/-- C3 (amended).  When every dispatched write succeeds, the count returned
by `create_file_list` does equal the count returned by
`parallel_sequence_splitting`; but the code checks no such invariant at the
boundary — `parallel_get_data` returns the manifest count unconditionally,
so a run in which the counts differ (possible under a swallowed write
failure) proceeds silently. -/
theorem file_count_matches_when_writes_succeed (content : List Char) :
    parallel_get_data content (fun _ => true) =
      (parallel_sequence_splitting content fun _ => true).1 := by
  unfold parallel_get_data
  have hlist := inputDirListing_all_writes content
  have hfil : (inputDirListing content (fun _ => true)).filter endsWithFasta =
      inputDirListing content (fun _ => true) := by
    refine List.filter_eq_self.mpr ?_
    intro a ha
    rw [hlist] at ha
    obtain ⟨p, _, rfl⟩ := List.mem_map.mp ha
    exact seqFileName_endsWithFasta p.2
  have hcount : (create_file_list (inputDirListing content (fun _ => true))).count =
      ((inputDirListing content (fun _ => true)).filter endsWithFasta).length :=
    (List.perm_insertionSort _ _).length_eq
  rw [hcount, hfil, hlist, List.length_map]
  rfl

/-! ### Claim C7 -/

/-- C7.  For any duplicate-free directory listing (the operating system
never lists the same entry twice), the manifest file list is exactly the
listed names carrying the `.fasta` extension (a permutation of the filter),
sorted ascending lexicographically, without duplicates; the manifest bytes
are one filename per line over that sorted list; and the two published
copies are byte-identical to the manifest. -/
theorem manifest_exact_sorted_copies (listing : List (List Char))
    (hnd : listing.Nodup) :
    (create_file_list listing).files.Perm (listing.filter endsWithFasta) ∧
    List.Sorted (· ≤ ·) (create_file_list listing).files ∧
    (create_file_list listing).files.Nodup ∧
    (create_file_list listing).manifest =
      manifestBytes (create_file_list listing).files ∧
    (create_file_list listing).featureCopy = (create_file_list listing).manifest ∧
    (create_file_list listing).kanalyzerCopy = (create_file_list listing).manifest := by
  refine ⟨List.perm_insertionSort _ _, List.sorted_insertionSort _ _, ?_, rfl, rfl, rfl⟩
  exact (List.perm_insertionSort (α := List Char) (· ≤ ·)
    (listing.filter endsWithFasta)).symm.nodup (hnd.filter _)

/-- C7 (witness): a concrete listing containing `list.txt` and two `.fasta`
files out of sorted order. -/
theorem manifest_exact_sorted_copies_witness :
    (create_file_list ["seq2.fasta".data, "list.txt".data, "seq1.fasta".data]).files.Perm
      (["seq2.fasta".data, "list.txt".data, "seq1.fasta".data].filter endsWithFasta) ∧
    List.Sorted (α := List Char) (· ≤ ·)
      (create_file_list ["seq2.fasta".data, "list.txt".data, "seq1.fasta".data]).files := by
  have h := manifest_exact_sorted_copies
    ["seq2.fasta".data, "list.txt".data, "seq1.fasta".data] (by decide)
  exact ⟨h.1, h.2.1⟩

/-! ### Directory Stager (`setup_directories`, lines 20-36) -/

/-- A filesystem node: a regular file or a directory with named entries. -/
inductive FsNode where
  | file (content : List Char)
  | dir (entries : List (String × FsNode))

/-- The slice of the workspace `setup_directories` touches: what exists at
the `input_data` path and at the `output_data` path (`none`: nothing
exists there). -/
structure Workspace where
  inputDir : Option FsNode
  outputDir : Option FsNode

/-- `if os.path.isdir(p): shutil.rmtree(p)` followed by `os.makedirs(p)`
(lines 24-31): an existing directory is removed and recreated empty; a
missing path is created; a regular file at the path is not removed (`isdir`
is false) and `os.makedirs` then raises `FileExistsError`. -/
def cleanAndCreate : Option FsNode → Except String FsNode
  | some (.file _) => .error "FileExistsError"
  | _ => .ok (.dir [])

/-- `os.makedirs(path, exist_ok=True)` one level below `d` (line 36):
creates the subdirectory if absent, tolerates an existing directory, raises
if a regular file occupies the name. -/
def makedirsExistOk (d : FsNode) (name : String) : Except String FsNode :=
  match d with
  | .file _ => .error "NotADirectoryError"
  | .dir es =>
    match es.lookup name with
    | none => .ok (.dir (es ++ [(name, .dir [])]))
    | some (.dir _) => .ok (.dir es)
    | some (.file _) => .error "FileExistsError"

/-- `setup_directories` (lines 20-36): clean and recreate the input and the
output directory, then create the `2mer`, `3mer`, `4mer` subdirectories of
the output directory with `exist_ok=True`.  (The first Python parameter,
`feature_destpath`, is never used by the function body and is omitted.) -/
def setup_directories (w : Workspace) : Except String Workspace := do
  let inp ← cleanAndCreate w.inputDir
  let out0 ← cleanAndCreate w.outputDir
  let out ← ["2mer", "3mer", "4mer"].foldlM makedirsExistOk out0
  return { inputDir := some inp, outputDir := some out }

/-- The workspace layout every successful `setup_directories` run produces:
an empty input directory and an output directory holding exactly the three
empty per-k-mer-size subdirectories. -/
def cleanWorkspace : Workspace :=
  { inputDir := some (.dir [])
    outputDir := some (.dir [("2mer", .dir []), ("3mer", .dir []), ("4mer", .dir [])]) }

lemma setup_directories_ok {w w' : Workspace}
    (h : setup_directories w = .ok w') : w' = cleanWorkspace := by
  obtain ⟨wi, wo⟩ := w
  rcases wi with _ | fi
  · rcases wo with _ | fo
    · exact (Except.ok.inj h).symm
    · rcases fo with c | es
      · exact Except.noConfusion h
      · exact (Except.ok.inj h).symm
  · rcases fi with c | es
    · exact Except.noConfusion h
    · rcases wo with _ | fo
      · exact (Except.ok.inj h).symm
      · rcases fo with c' | es'
        · exact Except.noConfusion h
        · exact (Except.ok.inj h).symm

/-! ### Claim C8 -/

/-- C8.  `setup_directories` is idempotent: whatever the starting state, any
successful run leaves the fixed clean layout (empty input directory, output
directory with exactly the empty `2mer`, `3mer`, `4mer` subdirectories and
nothing else, so nothing from a previous run survives), and running it again
on that result succeeds and leaves the state unchanged. -/
theorem stager_idempotent (w w' : Workspace) (h : setup_directories w = .ok w') :
    setup_directories w' = .ok w' ∧
    w'.inputDir = some (.dir []) ∧
    w'.outputDir =
      some (.dir [("2mer", .dir []), ("3mer", .dir []), ("4mer", .dir [])]) := by
  have hw := setup_directories_ok h
  subst hw
  exact ⟨rfl, rfl, rfl⟩

/-- C8 (witness): staging a workspace whose input directory still holds a
file from a previous run yields the clean layout, and a second run is a
no-op on it. -/
theorem stager_idempotent_witness :
    setup_directories cleanWorkspace = .ok cleanWorkspace ∧
    cleanWorkspace.inputDir = some (.dir []) :=
  ⟨(stager_idempotent
      { inputDir := some (.dir [("seq1.fasta", .file ">A".data)]), outputDir := none }
      cleanWorkspace rfl).1,
   rfl⟩

/-! ### External Job Orchestrator (`parallel_feature_generation`, lines 86-156) -/

/-- Outcome of spawning one external process. -/
inductive Proc where
  | spawnErr
  | exited (code : ℕ)

/-- `subprocess.run(..., check=True)` completes without raising exactly when
the process was spawned and exited with status 0. -/
def Proc.ok : Proc → Bool
  | .exited 0 => true
  | _ => false

/-- The external invocations `parallel_feature_generation` can make, in
program order. -/
inductive ExtCall where
  | chmod          -- chmod 775 runKanalyzer_parallel (line 101)
  | counting       -- ./runKanalyzer_parallel (line 106)
  | javacCollector -- javac ParallelKmersFeaturesCollector.java (line 130)
  | javacBuffer    -- javac BufferReaderAndWriter.java (line 131)
  | javaCollector  -- java ParallelKmersFeaturesCollector (line 134)
  | mvOutput       -- mv feature_file.csv <output> (line 141)
deriving DecidableEq

/-- A failure propagated out of the orchestrator: a failed external
invocation (the `raise` at lines 118 and 154, or an uncaught spawn error),
or a failure of the final `shutil.copy2`/`os.remove` of the artifact. -/
inductive OrchError where
  | stage (c : ExtCall)
  | copyFailed
deriving DecidableEq

/-- Environment of one orchestrator run: the outcome of each external
process it may spawn, and whether the final artifact copy and removal
succeed. -/
structure OrchestratorEnv where
  chmodP : Proc
  countingP : Proc
  javacCollectorP : Proc
  javacBufferP : Proc
  javaP : Proc
  mvP : Proc
  copyOk : Bool

/-- `parallel_feature_generation` (lines 86-156): the external invocations
actually performed, in order, paired with the overall outcome.  Phase 1 runs
`chmod` and then the counting script from the kanalyzer directory; any
failure there propagates (the `except` clause at lines 114-118 re-raises)
and phase 2 — Java compilation and the collector run — is never reached.
The `mv` step runs only when the caller-specified output name differs from
the fixed `feature_file.csv`, after which the artifact is copied to the data
directory and the intermediate copy removed. -/
def parallel_feature_generation (env : OrchestratorEnv) (outputFile : List Char) :
    List ExtCall × Except OrchError Unit :=
  if ¬ env.chmodP.ok then ([.chmod], .error (.stage .chmod)) else
  if ¬ env.countingP.ok then ([.chmod, .counting], .error (.stage .counting)) else
  if ¬ env.javacCollectorP.ok then
    ([.chmod, .counting, .javacCollector], .error (.stage .javacCollector)) else
  if ¬ env.javacBufferP.ok then
    ([.chmod, .counting, .javacCollector, .javacBuffer],
      .error (.stage .javacBuffer)) else
  if ¬ env.javaP.ok then
    ([.chmod, .counting, .javacCollector, .javacBuffer, .javaCollector],
      .error (.stage .javaCollector)) else
  if outputFile ≠ "feature_file.csv".data then
    ([.chmod, .counting, .javacCollector, .javacBuffer, .javaCollector, .mvOutput],
      if ¬ env.mvP.ok then .error (.stage .mvOutput)
      else if env.copyOk then .ok () else .error .copyFailed)
  else
    ([.chmod, .counting, .javacCollector, .javacBuffer, .javaCollector],
      if env.copyOk then .ok () else .error .copyFailed)

lemma Proc.ok_iff (p : Proc) : p.ok = true ↔ p = .exited 0 := by
  cases p with
  | spawnErr => simp [Proc.ok]
  | exited n => cases n <;> simp [Proc.ok]

/-! ### Claim C4 -/

/-- C4.  The orchestrator never invokes the feature-collection stage unless
the counting process has exited with status 0: whenever a compilation or
collector invocation appears in the performed-call list, the counting
outcome was exit 0; and under a counting spawn error or non-zero exit (with
the preceding `chmod` fine), the run aborts with a failure naming the
counting invocation and no collection call is ever performed. -/
theorem collection_requires_counting_success (env : OrchestratorEnv)
    (out : List Char) :
    ((ExtCall.javacCollector ∈ (parallel_feature_generation env out).1 ∨
      ExtCall.javacBuffer ∈ (parallel_feature_generation env out).1 ∨
      ExtCall.javaCollector ∈ (parallel_feature_generation env out).1) →
      env.countingP = .exited 0) ∧
    (env.chmodP.ok = true → env.countingP.ok = false →
      (parallel_feature_generation env out).2 = .error (.stage .counting) ∧
      ExtCall.javacCollector ∉ (parallel_feature_generation env out).1 ∧
      ExtCall.javacBuffer ∉ (parallel_feature_generation env out).1 ∧
      ExtCall.javaCollector ∉ (parallel_feature_generation env out).1) := by
  constructor
  · intro hmem
    by_cases h1 : env.chmodP.ok = true
    · by_cases h2 : env.countingP.ok = true
      · exact (Proc.ok_iff _).mp h2
      · exfalso
        simp [parallel_feature_generation, h1, h2] at hmem
    · exfalso
      simp [parallel_feature_generation, h1] at hmem
  · intro h1 h2
    simp [parallel_feature_generation, h1, h2]

/-- C4 (witness): with `chmod` fine and the counting script exiting with
status 2, the run fails naming the counting stage and the collector is never
compiled or run. -/
theorem collection_requires_counting_success_witness :
    (parallel_feature_generation
      { chmodP := .exited 0, countingP := .exited 2, javacCollectorP := .exited 0,
        javacBufferP := .exited 0, javaP := .exited 0, mvP := .exited 0,
        copyOk := true } "feature_file.csv".data).2 = .error (.stage .counting) ∧
    ExtCall.javaCollector ∉ (parallel_feature_generation
      { chmodP := .exited 0, countingP := .exited 2, javacCollectorP := .exited 0,
        javacBufferP := .exited 0, javaP := .exited 0, mvP := .exited 0,
        copyOk := true } "feature_file.csv".data).1 := by
  have h := (collection_requires_counting_success
    { chmodP := .exited 0, countingP := .exited 2, javacCollectorP := .exited 0,
      javacBufferP := .exited 0, javaP := .exited 0, mvP := .exited 0,
      copyOk := true } "feature_file.csv".data).2 rfl rfl
  exact ⟨h.1, h.2.2.2⟩

/-! ### Claim C9: the final summary of `main` (lines 226-233) -/

/-- The average-time report printed at line 232,
`total_time/num_sequences`: Python float division by the integer `0` raises
`ZeroDivisionError`, so when no record survived splitting, `main` dies on
this line — after every pipeline stage already completed — instead of
exiting successfully. -/
def averageTimeReport (totalTime : ℚ) (numSequences : ℕ) : Except String ℚ :=
  if numSequences = 0 then .error "ZeroDivisionError"
  else .ok (totalTime / numSequences)

/-- C9.  The empty source file is a valid input with zero surviving records:
the splitter returns 0, data preparation completes returning 0, yet the
final average-time report of `main` divides by that count and raises; the
report is well-defined exactly when at least one record survived. -/
theorem average_time_division_needs_records :
    (parallel_sequence_splitting "".data fun _ => true).1 = 0 ∧
    parallel_get_data "".data (fun _ => true) = 0 ∧
    (∀ t : ℚ, averageTimeReport t 0 = .error "ZeroDivisionError") ∧
    (∀ n : ℕ, 0 < n → ∀ t : ℚ, averageTimeReport t n = .ok (t / n)) := by
  refine ⟨by decide, by decide, fun t => rfl, fun n hn t => ?_⟩
  simp [averageTimeReport, Nat.pos_iff_ne_zero.mp hn]

/-- C9 (witness): a run that processed two sequences in 10 seconds reports
an average of 5 seconds, while the zero-record report raises. -/
theorem average_time_division_needs_records_witness :
    averageTimeReport 10 0 = .error "ZeroDivisionError" ∧
    averageTimeReport 10 2 = .ok 5 := by
  refine ⟨average_time_division_needs_records.2.2.1 10, ?_⟩
  have h := average_time_division_needs_records.2.2.2 2 (by norm_num) 10
  rw [h]
  norm_num

/-! ### Benchmark Harness (`benchmark_parallel.py`) -/

/-- Wall-clock outcome of one benchmarked subprocess invocation: the elapsed
time measured around it and its exit status. -/
structure RunOutcome where
  elapsed : ℚ
  exitCode : ℕ

/-- `run_command_with_timing` (lines 12-36): returns the elapsed time and
`True` on exit status 0; a non-zero exit (`subprocess.CalledProcessError`,
since `check=True`) is caught and reported as `False` together with the
elapsed time up to the failure. -/
def run_command_with_timing (o : RunOutcome) : ℚ × Bool :=
  (o.elapsed, o.exitCode == 0)

/-- What the two benchmarked invocations do in the current run: each
process outcome, the artifact bytes each run writes (`none`: the run
produced no artifact), and `os.cpu_count()`. -/
structure BenchEnv where
  origOutcome : RunOutcome
  parOutcome : RunOutcome
  origProduces : Option (List Char)
  parProduces : Option (List Char)
  cpuCount : ℕ

/-- The files the harness touches under `data/`: the demo input and the two
output artifacts (`none`: the file does not exist). -/
structure BenchFs where
  demo : Option (List Char)          -- data/demo.fasta
  origCsv : Option (List Char)       -- data/demo_original.csv
  parCsv : Option (List Char)        -- data/demo_parallel.csv

/-- Lines 74-77: `if os.path.exists(file): os.remove(file)`. -/
def removeIfExists : Option (List Char) → Option (List Char)
  | some _ => none
  | none => none

/-- Python `readlines`: line fragments keeping their terminating newline,
with a trailing fragment kept when the file does not end in a newline. -/
def pyReadlinesAux (cur : List Char) : List Char → List (List Char)
  | [] => if cur = [] then [] else [cur.reverse]
  | c :: cs =>
    if c = '\n' then (cur.reverse ++ ['\n']) :: pyReadlinesAux [] cs
    else pyReadlinesAux (c :: cur) cs

def pyReadlines (s : List Char) : List (List Char) := pyReadlinesAux [] s

/-- Python `s.strip()`: the string with leading and trailing whitespace
removed. -/
def pyStrip (s : List Char) : List Char :=
  ((s.dropWhile isPySpace).reverse.dropWhile isPySpace).reverse

/-- The OUTPUT COMPARISON block (lines 116-145): byte sizes and their
absolute difference, line counts, and the match flags of the first three
line pairs (compared after `strip`, over `zip`, so only as many flags as
both files have lines among the first three). -/
structure Comparison where
  origSize : ℕ
  parSize : ℕ
  sizeDiff : ℕ
  origLines : ℕ
  parLines : ℕ
  firstThreeMatch : List Bool

def mkComparison (o p : List Char) : Comparison :=
  { origSize := o.length
    parSize := p.length
    sizeDiff := ((o.length : ℤ) - (p.length : ℤ)).natAbs
    origLines := (pyReadlines o).length
    parLines := (pyReadlines p).length
    firstThreeMatch :=
      (((pyReadlines o).take 3).zip ((pyReadlines p).take 3)).map
        fun q => decide (pyStrip q.1 = pyStrip q.2) }

/-- The PERFORMANCE SUMMARY block (lines 147-169).  When both runs
succeeded, the code computes `speedup = original_time / parallel_time`,
the time saved, and the efficiency `(speedup / os.cpu_count()) * 100`
(reported as a percentage of the theoretical maximum); a division by an
exactly-zero measured time or a zero processor count would raise.  When at
least one run failed, no speedup is computed: the block reports which run
failed, with that run's elapsed time. -/
inductive Summary where
  | perf (origTime parTime speedup timeSaved efficiencyPercent : ℚ)
  | zeroDivisionError
  | failed (origFailure parFailure : Option ℚ)

/-- Everything `main` of `benchmark_parallel.py` reports for one
invocation. -/
structure BenchReport where
  seqCount : ℕ
  origTime : ℚ
  origSuccess : Bool
  origExists : Bool
  parTime : ℚ
  parSuccess : Bool
  parExists : Bool
  comparison : Option Comparison
  summary : Summary

/-- `main` of `benchmark_parallel.py` (lines 48-174).  Returns `none` when
`data/demo.fasta` is missing (early return, lines 53-56).  Otherwise: count
the record markers in the demo file (lines 63-65), delete any pre-existing
`demo_original.csv` and `demo_parallel.csv` (lines 74-77), run and time the
sequential command — its artifact appearing on disk only if the run writes
it — check the artifact, run and time the parallel command likewise, check
its artifact, compare the two artifacts when both exist, and emit the
performance summary. -/
def bench_main (fs : BenchFs) (env : BenchEnv) : Option BenchReport :=
  match fs.demo with
  | none => none
  | some demoContent =>
    let origCsv0 := removeIfExists fs.origCsv
    let parCsv0 := removeIfExists fs.parCsv
    let r1 := run_command_with_timing env.origOutcome
    let origCsv1 := match env.origProduces with
      | some c => some c
      | none => origCsv0
    let origExists := origCsv1.isSome
    let r2 := run_command_with_timing env.parOutcome
    let parCsv1 := match env.parProduces with
      | some c => some c
      | none => parCsv0
    let parExists := parCsv1.isSome
    let comparison := match origCsv1, parCsv1 with
      | some o, some p => some (mkComparison o p)
      | _, _ => none
    let summary :=
      if r1.2 && r2.2 then
        if r2.1 = 0 ∨ env.cpuCount = 0 then Summary.zeroDivisionError
        else
          Summary.perf r1.1 r2.1 (r1.1 / r2.1) (r1.1 - r2.1)
            (r1.1 / r2.1 / (env.cpuCount : ℚ) * 100)
      else
        Summary.failed (if r1.2 then none else some r1.1)
          (if r2.2 then none else some r2.1)
    some { seqCount := demoContent.count '>'
           origTime := r1.1, origSuccess := r1.2, origExists := origExists
           parTime := r2.1, parSuccess := r2.2, parExists := parExists
           comparison := comparison, summary := summary }

/-! ### Claim C5 -/

/-- C5.  Whenever the harness runs (the demo file exists), the report
records the elapsed time and success flag of each of the two runs exactly
as its own subprocess outcome delivered them — in particular the parallel
run is executed and timed whatever the sequential outcome was, and vice
versa — and when at least one run failed the summary is the failure report,
naming exactly the failed runs with each one's elapsed time up to the
failure, with no speedup computed. -/
theorem harness_runs_and_failure_report (fs : BenchFs) (env : BenchEnv)
    (r : BenchReport) (h : bench_main fs env = some r) :
    r.origTime = env.origOutcome.elapsed ∧
    r.origSuccess = (env.origOutcome.exitCode == 0) ∧
    r.parTime = env.parOutcome.elapsed ∧
    r.parSuccess = (env.parOutcome.exitCode == 0) ∧
    (¬ (env.origOutcome.exitCode = 0 ∧ env.parOutcome.exitCode = 0) →
      r.summary = Summary.failed
        (if env.origOutcome.exitCode == 0 then none
         else some env.origOutcome.elapsed)
        (if env.parOutcome.exitCode == 0 then none
         else some env.parOutcome.elapsed)) := by
  rcases hd : fs.demo with _ | d
  · rw [bench_main, hd] at h
    exact Option.noConfusion h
  · rw [bench_main, hd] at h
    have hr := (Option.some.inj h).symm
    subst hr
    refine ⟨rfl, rfl, rfl, rfl, fun hne => ?_⟩
    have hb : (env.origOutcome.exitCode == 0 && env.parOutcome.exitCode == 0) = false := by
      rcases Nat.eq_zero_or_pos env.origOutcome.exitCode with h1 | h1
      · rcases Nat.eq_zero_or_pos env.parOutcome.exitCode with h2 | h2
        · exact absurd ⟨h1, h2⟩ hne
        · simp [Nat.pos_iff_ne_zero.mp h2]
      · simp [Nat.pos_iff_ne_zero.mp h1]
    simp only [run_command_with_timing, hb, Bool.false_eq_true, if_false]

/-- The demo-file state used by the concrete harness evaluations. -/
def benchFsDemo : BenchFs :=
  { demo := some ">A".data, origCsv := none, parCsv := none }

/-- Concrete environment: sequential run fails after 7 seconds with exit 1,
parallel run succeeds in 3 seconds. -/
def benchEnvOrigFails : BenchEnv :=
  { origOutcome := { elapsed := 7, exitCode := 1 }
    parOutcome := { elapsed := 3, exitCode := 0 }
    origProduces := none, parProduces := some "x".data
    cpuCount := 4 }

/-- Concrete environment: both runs succeed, times 10 and 5/2, 8
processors. -/
def benchEnvFast : BenchEnv :=
  { origOutcome := { elapsed := 10, exitCode := 0 }
    parOutcome := { elapsed := 5/2, exitCode := 0 }
    origProduces := some "x".data, parProduces := some "x".data
    cpuCount := 8 }

/-- Concrete environment: both runs succeed with equal times of 3 seconds,
one processor. -/
def benchEnvEqual : BenchEnv :=
  { origOutcome := { elapsed := 3, exitCode := 0 }
    parOutcome := { elapsed := 3, exitCode := 0 }
    origProduces := some "x".data, parProduces := some "x".data
    cpuCount := 1 }

/-- C5 (witness): the sequential run fails after 7 seconds with exit 1, the
parallel run succeeds in 3 seconds; the parallel run is still timed and the
summary names only the failed sequential run with its elapsed time. -/
theorem harness_runs_and_failure_report_witness :
    ((bench_main benchFsDemo benchEnvOrigFails).get rfl).parTime = 3 ∧
    ((bench_main benchFsDemo benchEnvOrigFails).get rfl).summary =
      Summary.failed (some 7) none := by
  have h := harness_runs_and_failure_report benchFsDemo benchEnvOrigFails
    ((bench_main benchFsDemo benchEnvOrigFails).get rfl)
    (@Option.some_get _ (bench_main benchFsDemo benchEnvOrigFails) rfl).symm
  refine ⟨h.2.2.1, ?_⟩
  rw [h.2.2.2.2 (by simp [benchEnvOrigFails])]
  rfl

/-! ### Claim C6 -/

/-- C6.  When both runs succeed (exit 0), the measured parallel time is
positive and there is at least one processor, the summary carries
`speedup = sequential_time / parallel_time` and the reported efficiency
percentage `speedup / cpu_count * 100`, together with both raw times and
the time saved. -/
theorem harness_speedup_and_efficiency (fs : BenchFs) (env : BenchEnv)
    (r : BenchReport) (h : bench_main fs env = some r)
    (ho : env.origOutcome.exitCode = 0) (hp : env.parOutcome.exitCode = 0)
    (hpt : 0 < env.parOutcome.elapsed) (hcpu : 0 < env.cpuCount) :
    r.summary = Summary.perf env.origOutcome.elapsed env.parOutcome.elapsed
      (env.origOutcome.elapsed / env.parOutcome.elapsed)
      (env.origOutcome.elapsed - env.parOutcome.elapsed)
      (env.origOutcome.elapsed / env.parOutcome.elapsed / (env.cpuCount : ℚ) * 100) := by
  rcases hd : fs.demo with _ | d
  · rw [bench_main, hd] at h
    exact Option.noConfusion h
  · rw [bench_main, hd] at h
    have hr := (Option.some.inj h).symm
    subst hr
    have hz : ¬ (env.parOutcome.elapsed = 0 ∨ env.cpuCount = 0) := by
      push_neg
      exact ⟨ne_of_gt hpt, Nat.pos_iff_ne_zero.mp hcpu⟩
    simp only [run_command_with_timing, ho, hp, beq_self_eq_true, Bool.and_self,
      if_true, hz, if_false]

/-- C6 (witness): sequential time 10 with parallel time 5/2 (the rational
value of 2.5) yields speedup 4, and on 8 processors an efficiency of 50
percent; two equal times of 3 yield speedup 1. -/
theorem harness_speedup_and_efficiency_witness :
    ((bench_main benchFsDemo benchEnvFast).get rfl).summary =
      Summary.perf 10 (5/2) 4 (15/2) 50 ∧
    ((bench_main benchFsDemo benchEnvEqual).get rfl).summary =
      Summary.perf 3 3 1 0 100 := by
  constructor
  · have h := harness_speedup_and_efficiency benchFsDemo benchEnvFast
      ((bench_main benchFsDemo benchEnvFast).get rfl)
      (@Option.some_get _ (bench_main benchFsDemo benchEnvFast) rfl).symm
      rfl rfl (by norm_num [benchEnvFast]) (by norm_num [benchEnvFast])
    rw [h]
    norm_num [benchEnvFast]
  · have h := harness_speedup_and_efficiency benchFsDemo benchEnvEqual
      ((bench_main benchFsDemo benchEnvEqual).get rfl)
      (@Option.some_get _ (bench_main benchFsDemo benchEnvEqual) rfl).symm
      rfl rfl (by norm_num [benchEnvEqual]) (by norm_num [benchEnvEqual])
    rw [h]
    norm_num [benchEnvEqual]

/-! ### Claim C10 -/

/-- C10.  The harness removes both pre-existing artifacts before launching
either run, so its whole report is independent of whatever
`demo_original.csv` and `demo_parallel.csv` contained beforehand, and the
artifact-existence checks observe an artifact exactly when the
corresponding run of the current invocation produced it. -/
theorem harness_ignores_stale_artifacts (fs : BenchFs) (env : BenchEnv)
    (o p : Option (List Char)) :
    bench_main { fs with origCsv := o, parCsv := p } env = bench_main fs env ∧
    (bench_main fs env).map (fun r => (r.origExists, r.parExists)) =
      (bench_main fs env).map
        (fun _ => (env.origProduces.isSome, env.parProduces.isSome)) := by
  constructor
  · rcases hd : fs.demo with _ | d
    · simp [bench_main, hd]
    · cases o <;> cases p <;> cases ho : fs.origCsv <;> cases hp : fs.parCsv <;>
        simp [bench_main, hd, ho, hp, removeIfExists]
  · rcases hd : fs.demo with _ | d
    · simp [bench_main, hd]
    · cases henv : env.origProduces <;> cases henv' : env.parProduces <;>
        cases ho : fs.origCsv <;> cases hp : fs.parCsv <;>
          simp [bench_main, hd, henv, henv', ho, hp, removeIfExists]

end ClassifyTE
